import Mathlib

/-!
Verification development for the object-storage gateway (`StorageService`)
of the Reactive-Resume repository: path derivation, URI component
encoding/decoding, bucket provisioning with policy substitution, image
normalization, and the upload/delete/bulk-delete operations, together
with their error propagation behaviour.

The service code is embedded shallowly: the remote Minio store is a finite
map from object paths to stored objects, each remote client call is given
an explicit outcome (success or an injected failure), and each service
method is a pure function returning its result, the trace of client calls
it issued, and the updated store.
-/

/-! ## Characters and URI component encoding

The service derives object paths using the ECMAScript builtin
`encodeURIComponent`; its inverse `decodeURIComponent` is modelled as well.
Both are modelled from the ECMA-262 specification of these builtins
(`encodeURIComponent` percent-encodes, with uppercase hex digits, the UTF-8
bytes of every character outside the unreserved set; `decodeURIComponent`
parses percent-escapes back into bytes and strictly UTF-8-decodes them).
-/

/-- The apostrophe character, by code point. -/
def apos : Char := Char.ofNat 39

/-- The unreserved set of `encodeURIComponent` (ECMA-262 `uriUnescaped`):
ASCII alphanumerics and `- _ . ! ~ * ( )` together with the apostrophe. -/
def isUriUnreserved (c : Char) : Bool :=
  let v := c.toNat
  (65 ≤ v && v ≤ 90) || (97 ≤ v && v ≤ 122) || (48 ≤ v && v ≤ 57) ||
  v == 45 || v == 95 || v == 46 || v == 33 || v == 126 || v == 42 ||
  v == 39 || v == 40 || v == 41

/-- Uppercase hexadecimal digit for a value below 16. -/
def hexDigit (n : Nat) : Char :=
  if n < 10 then Char.ofNat (48 + n) else Char.ofNat (55 + n)

/-- Value of a hexadecimal digit character (either case), if it is one. -/
def hexVal (c : Char) : Option Nat :=
  let v := c.toNat
  if 48 ≤ v ∧ v ≤ 57 then some (v - 48)
  else if 65 ≤ v ∧ v ≤ 70 then some (v - 55)
  else if 97 ≤ v ∧ v ≤ 102 then some (v - 87)
  else none

/-- UTF-8 encoding of a single character, as a list of byte values. -/
def utf8Bytes (c : Char) : List Nat :=
  let v := c.toNat
  if v < 128 then [v]
  else if v < 2048 then [192 + v / 64, 128 + v % 64]
  else if v < 65536 then [224 + v / 4096, 128 + (v / 64) % 64, 128 + v % 64]
  else [240 + v / 262144, 128 + (v / 4096) % 64, 128 + (v / 64) % 64, 128 + v % 64]

/-- Percent-escape of one byte: `%` followed by two uppercase hex digits. -/
def pctTriple (b : Nat) : List Char :=
  ['%', hexDigit (b / 16), hexDigit (b % 16)]

/-- Encoding of one character by `encodeURIComponent`: unreserved characters pass through,
all others are percent-escaped byte by byte (UTF-8). -/
def encodeChar (c : Char) : List Char :=
  if isUriUnreserved c then [c] else ((utf8Bytes c).map pctTriple).flatten

/-- The ECMAScript builtin `encodeURIComponent`, on character lists. -/
def encodeURIComponent (s : List Char) : List Char :=
  (s.map encodeChar).flatten

/-- Continuation-byte constraint for the second byte of a three-byte UTF-8
sequence with lead byte `b1` (rejects overlong encodings and surrogates). -/
def utf8Second3 (b1 b2 : Nat) : Bool :=
  (128 ≤ b2 && b2 < 192) &&
  (b1 != 224 || 160 ≤ b2) && (b1 != 237 || b2 < 160)

/-- Continuation-byte constraint for the second byte of a four-byte UTF-8
sequence with lead byte `b1` (rejects overlong and out-of-range encodings). -/
def utf8Second4 (b1 b2 : Nat) : Bool :=
  (128 ≤ b2 && b2 < 192) &&
  (b1 != 240 || 144 ≤ b2) && (b1 != 244 || b2 < 144)

/-- Plain continuation byte constraint. -/
def utf8Cont (b : Nat) : Bool := 128 ≤ b && b < 192

/-- Parse one percent-escape `%XY` at the head of the input, returning the
byte value and the remaining characters (together with the fact that exactly
three characters were consumed). -/
def decodeCont (s : List Char) : Option (Nat × {r : List Char // r.length + 3 = s.length}) :=
  match s with
  | '%' :: h :: l :: rest =>
    match hexVal h, hexVal l with
    | some x, some y => some (16 * x + y, ⟨rest, by simp⟩)
    | _, _ => none
  | _ => none

/-- Decode one escaped UTF-8 sequence at the head of the input: a leading
percent-escape, followed — when its byte has the high bit set — by the
percent-escaped continuation bytes of a valid UTF-8 encoding. Returns the
decoded character and the remaining characters; any malformed escape,
overlong encoding, surrogate or out-of-range value fails. -/
def decodeEscaped (s : List Char) : Option (Char × {r : List Char // r.length < s.length}) :=
  match decodeCont s with
  | none => none
  | some (b1, ⟨r1, hr1⟩) =>
    if b1 < 128 then some (Char.ofNat b1, ⟨r1, by omega⟩)
    else if b1 < 194 then none
    else if b1 < 224 then
      match decodeCont r1 with
      | none => none
      | some (b2, ⟨r2, hr2⟩) =>
        if utf8Cont b2 then
          some (Char.ofNat ((b1 - 192) * 64 + (b2 - 128)), ⟨r2, by omega⟩)
        else none
    else if b1 < 240 then
      match decodeCont r1 with
      | none => none
      | some (b2, ⟨r2, hr2⟩) =>
        match decodeCont r2 with
        | none => none
        | some (b3, ⟨r3, hr3⟩) =>
          if utf8Second3 b1 b2 && utf8Cont b3 then
            some (Char.ofNat ((b1 - 224) * 4096 + (b2 - 128) * 64 + (b3 - 128)),
              ⟨r3, by omega⟩)
          else none
    else if b1 < 245 then
      match decodeCont r1 with
      | none => none
      | some (b2, ⟨r2, hr2⟩) =>
        match decodeCont r2 with
        | none => none
        | some (b3, ⟨r3, hr3⟩) =>
          match decodeCont r3 with
          | none => none
          | some (b4, ⟨r4, hr4⟩) =>
            if utf8Second4 b1 b2 && utf8Cont b3 && utf8Cont b4 then
              some (Char.ofNat ((b1 - 240) * 262144 + (b2 - 128) * 4096 +
                  (b3 - 128) * 64 + (b4 - 128)), ⟨r4, by omega⟩)
            else none
    else none

/-- The ECMAScript builtin `decodeURIComponent`, on character lists: a `%`
starts a percent-escape; an escaped byte with the high bit set must begin a
complete, valid UTF-8 sequence whose continuation bytes are themselves
percent-escaped; any malformed escape or encoding fails (`none`, modelling
the thrown `URIError`). Other characters pass through unchanged. -/
def decodeURIComponent : List Char → Option (List Char)
  | [] => some []
  | c :: rest =>
    if c = '%' then
      match decodeEscaped (c :: rest) with
      | some (ch, ⟨r, hr⟩) => (ch :: ·) <$> decodeURIComponent r
      | none => none
    else
      (c :: ·) <$> decodeURIComponent rest
termination_by s => s.length
decreasing_by
  · exact hr
  · simp

/-- String-level wrapper for `encodeURIComponent`. -/
def encodeURIComponentStr (s : String) : String :=
  String.mk (encodeURIComponent s.data)

/-! ## String substitution for the bucket policy

The method `onModuleInit` instantiates the bucket policy with
`JSON.stringify(PUBLIC_ACCESS_POLICY).replace(/{{bucketName}}/g, bucketName)`.
`replaceSubst` models `String.prototype.replace` with a global literal
pattern: leftmost-first, non-overlapping, and the replacement text is not
rescanned. -/

/-- Replace every occurrence of `pat` (leftmost-first, non-overlapping) in a
character list by `repl`; the replacement is not rescanned. The `fuel`
argument only bounds the recursion depth; one unit is spent per position
examined, so `s.length` units always suffice. -/
def replaceSubstFuel (pat repl : List Char) : Nat → List Char → List Char
  | _, [] => []
  | 0, s => s
  | fuel + 1, c :: rest =>
    if pat ≠ [] ∧ (c :: rest).take pat.length = pat then
      repl ++ replaceSubstFuel pat repl fuel ((c :: rest).drop pat.length)
    else
      c :: replaceSubstFuel pat repl fuel rest

/-- Replace every occurrence of `pat` (leftmost-first, non-overlapping) in a
character list by `repl`. -/
def replaceSubst (pat repl s : List Char) : List Char :=
  replaceSubstFuel pat repl s.length s

/-- String-level wrapper for `replaceSubst`. -/
def replaceAllStr (pat repl s : String) : String :=
  String.mk (replaceSubst pat.data repl.data s.data)

/-- The template placeholder for the bucket name. -/
def bucketNamePlaceholder : String := "\x7b\x7bbucketName\x7d\x7d"

/-- Modelled from the `JSON.stringify` output of `PUBLIC_ACCESS_POLICY`: the
fixed public-read policy document granting anonymous `s3:GetObject` on the
three category prefixes, with `\x7b\x7bbucketName\x7d\x7d` placeholders in
the three resource ARN strings. -/
def stringifiedPolicy : String :=
  "\x7b\"Version\":\"2012-10-17\",\"Statement\":[\x7b\"Sid\":\"PublicAccess\",\"Effect\":\"Allow\",\"Action\":[\"s3:GetObject\"],\"Principal\":\x7b\"AWS\":[\"*\"]\x7d,\"Resource\":[\"arn:aws:s3:::\x7b\x7bbucketName\x7d\x7d/*/pictures/*\",\"arn:aws:s3:::\x7b\x7bbucketName\x7d\x7d/*/previews/*\",\"arn:aws:s3:::\x7b\x7bbucketName\x7d\x7d/*/resumes/*\"]\x7d]\x7d"

/-! ## Buffers, images and sharp normalization

For image uploads the service pipes the buffer through
`sharp(buffer).resize({ width: 600, height: 600, fit: sharp.fit.outside })
.jpeg({ quality: 80 }).toBuffer()`. A buffer is modelled either as a raw
byte list or, when it is a decodable image, by its decoded pixel
dimensions. -/

/-- A Node.js `Buffer`: either a decodable image, abstracted by its pixel
dimensions, or raw (non-image) bytes. -/
inductive Buffer where
  | image (width height : Nat)
  | raw (bytes : List Nat)
deriving DecidableEq, Repr

/-- Round `a / b` to the nearest natural number (halves up). -/
def roundNearest (a b : Nat) : Nat := (2 * a + b) / (2 * b)

/-- Modelled from the sharp library's documented `resize` semantics with
`width: 600, height: 600, fit: outside`: preserving aspect ratio, scale the
image to be as small as possible while both dimensions are greater than or
equal to 600 — the scale factor is `max (600/w) (600/h) = 600 / min w h`,
applied to both dimensions with rounding to nearest (sharp rounds halves to
even; the model rounds halves up, which agrees off exact halves). No
`withoutEnlargement` option is passed, so smaller images are enlarged. -/
def resizeOutsideDims (w h : Nat) : Nat × Nat :=
  if h ≤ w then (roundNearest (w * 600) h, 600) else (600, roundNearest (h * 600) w)

/-! ## Errors, client calls and the store -/

/-- A JavaScript error value as observed by a caller of the service: either
an error raised by the underlying Minio client (identified by its code), or
a NestJS `InternalServerErrorException` built from a message or wrapping
another error. -/
inductive JsError where
  | clientError (code : String)
  | internalServerError (msg : String)
  | internalServerFrom (e : JsError)
deriving DecidableEq, Repr

/-- Whether an error is an internal-server-class error
(`InternalServerErrorException`). -/
def isInternalServerClass : JsError → Bool
  | .clientError _ => false
  | .internalServerError _ => true
  | .internalServerFrom _ => true

/-- Object metadata attached at upload time. -/
structure ObjectMetadata where
  contentType : String
  contentDisposition : Option String
deriving DecidableEq, Repr

/-- An object held by the store: its bytes and its metadata. -/
structure StoredObject where
  data : Buffer
  metadata : ObjectMetadata
deriving DecidableEq, Repr

/-- The remote bucket content: a finite map from object paths to objects. -/
abbrev Store := List (String × StoredObject)

/-- A call issued to the underlying Minio client. -/
inductive ClientCall where
  | bucketExistsCall (bucket : String)
  | makeBucketCall (bucket : String)
  | setBucketPolicyCall (bucket : String) (policy : String)
  | putObjectCall (bucket : String) (path : String) (data : Buffer) (metadata : ObjectMetadata)
  | statObjectCall (bucket : String) (path : String)
  | removeObjectCall (bucket : String) (path : String)
  | removeObjectsCall (bucket : String) (objects : List String)
  | listObjectsV2Call (bucket : String) (pfx : String) (recursive : Bool)
deriving DecidableEq, Repr

/-- Embeds `putObject`: store an object at a path, overwriting any previous one. -/
def putStore (s : Store) (path : String) (o : StoredObject) : Store :=
  (path, o) :: s.filter (fun e => e.1 != path)

/-- Look up the object stored at a path. -/
def getStore (s : Store) (path : String) : Option StoredObject :=
  (s.find? (fun e => e.1 == path)).map (·.2)

/-- Embeds `removeObject`: drop the object at a path; removing an absent path is a
successful no-op (S3 object deletion is idempotent). -/
def removeStore (s : Store) (path : String) : Store :=
  s.filter (fun e => e.1 != path)

/-- Embeds `listObjectsV2` with `recursive = true`: the names of all objects whose
path starts with the given string. -/
def listStore (s : Store) (pfx : String) : List String :=
  (s.filter (fun e => pfx.data.isPrefixOf e.1.data)).map (·.1)

/-- Embeds `removeObjects`: drop every object whose path is in the given list. -/
def removeObjectsStore (s : Store) (names : List String) : Store :=
  s.filter (fun e => !(names.contains e.1))

/-! ## The StorageService methods

Each method is embedded as a pure function. Failures of the underlying
client are injected through explicit parameters (`Option String` holds the
code of an injected client failure, `none` meaning the call succeeds;
`Except JsError Bool` is the outcome of a call returning a boolean). The
returned record carries the method's result, the trace of client calls it
issued, and the content of the store afterwards. -/

/-- Result of one embedded sharp pipeline invocation:
`sharp(buffer).resize(\x7b width: 600, height: 600, fit: outside \x7d)
.jpeg(\x7b quality: 80 \x7d).toBuffer()`. A non-image buffer makes the
pipeline reject. -/
def sharpNormalize : Buffer → Except JsError Buffer
  | Buffer.image w h => .ok (Buffer.image (resizeOutsideDims w h).1 (resizeOutsideDims w h).2)
  | Buffer.raw _ => .error (JsError.clientError "sharp: input buffer contains unsupported image format")

/-- The upload categories of the service (`UploadType`). -/
inductive UploadType where
  | pictures
  | previews
  | resumes
deriving DecidableEq, Repr

/-- The path segment for an upload type. -/
def uploadTypeStr : UploadType → String
  | .pictures => "pictures"
  | .previews => "previews"
  | .resumes => "resumes"

deriving instance DecidableEq for Except

/-- Outcome of a service method: result, trace of client calls, new store. -/
structure MethodResult (α : Type) where
  result : Except JsError α
  calls : List ClientCall
  store : Store
deriving DecidableEq, Repr

/-- Outcome of `onModuleInit`: result, trace of client calls, warnings. -/
structure InitResult where
  result : Except JsError Unit
  calls : List ClientCall
  warns : List String
deriving DecidableEq, Repr

/-- Embeds `StorageService.onModuleInit`: when the skip flag is set, log two
warnings and return without touching the store; otherwise check bucket
existence, and if the bucket is absent create it and apply the instantiated
public-read policy. Inner failures of `makeBucket` and `setBucketPolicy`
are rethrown as `InternalServerErrorException`s with fixed messages, and
the outer catch wraps any error of the `try` block (including those) in a
further `InternalServerErrorException`. -/
def onModuleInit (bucketName : String) (skipBucketCheck : Bool)
    (existsRes : Except JsError Bool) (makeFault : Option String)
    (policyFault : Option String) : InitResult :=
  if skipBucketCheck then
    { result := .ok ()
      calls := []
      warns :=
        [ "Skipping the verification of whether the storage bucket exists.",
          "Make sure that the following paths are publicly accessible: `/\x7bpictures,previews,resumes\x7d/*`" ] }
  else
    match existsRes with
    | .error e =>
      { result := .error (.internalServerFrom e)
        calls := [ClientCall.bucketExistsCall bucketName]
        warns := [] }
    | .ok true =>
      { result := .ok ()
        calls := [ClientCall.bucketExistsCall bucketName]
        warns := [] }
    | .ok false =>
      let bucketPolicy := replaceAllStr bucketNamePlaceholder bucketName stringifiedPolicy
      match makeFault with
      | some _ =>
        { result := .error (.internalServerFrom
            (.internalServerError "There was an error while creating the storage bucket."))
          calls := [ClientCall.bucketExistsCall bucketName, ClientCall.makeBucketCall bucketName]
          warns := [] }
      | none =>
        match policyFault with
        | some _ =>
          { result := .error (.internalServerFrom
              (.internalServerError "There was an error while applying the policy to the storage bucket."))
            calls :=
              [ ClientCall.bucketExistsCall bucketName,
                ClientCall.makeBucketCall bucketName,
                ClientCall.setBucketPolicyCall bucketName bucketPolicy ]
            warns := [] }
        | none =>
          { result := .ok ()
            calls :=
              [ ClientCall.bucketExistsCall bucketName,
                ClientCall.makeBucketCall bucketName,
                ClientCall.setBucketPolicyCall bucketName bucketPolicy ]
            warns := [] }

/-- Embeds `StorageService.bucketExists`: consult the client; throw an
`InternalServerErrorException` if the bucket does not exist. The catch
block logs and rethrows the caught error itself (`throw error`), so a
client failure propagates as the original error. -/
def bucketExistsSvc (existsRes : Except JsError Bool) : Except JsError Unit :=
  match existsRes with
  | .error e => .error e
  | .ok true => .ok ()
  | .ok false =>
    .error (.internalServerError "There was an error while checking if the storage bucket exists.")

/-- The error `uploadObject` throws when anything in its `try` block fails. -/
def uploadError : JsError :=
  .internalServerError "There was an error while uploading the file."

/-- Embeds `StorageService.uploadObject`: derive extension, encoded filename, path,
URL and metadata; for images run the sharp pipeline; `putObject` the buffer;
re-verify existence with `statObject`; return the URL. Every failure inside
the `try` block — sharp, `putObject`, or `statObject` — is caught and
rethrown as the fixed internal-server upload error. -/
def uploadObject (bucketName storageUrl : String) (store : Store)
    (userId : String) (type : UploadType) (buffer : Buffer) (filename : String)
    (putFault : Option String) (statRes : Except JsError Bool) : MethodResult String :=
  let extension := if type = UploadType.resumes then "pdf" else "jpg"
  let encodedFilename := encodeURIComponentStr filename
  let filepath := userId ++ "/" ++ uploadTypeStr type ++ "/" ++ encodedFilename ++ "." ++ extension
  let url := storageUrl ++ "/" ++ filepath
  let metadata : ObjectMetadata :=
    if extension = "jpg" then
      { contentType := "image/jpeg", contentDisposition := none }
    else
      { contentType := "application/pdf"
        contentDisposition := some ("attachment; filename*=UTF-8" ++ String.mk [apos, apos]
          ++ encodedFilename ++ "." ++ extension) }
  match (if extension = "jpg" then sharpNormalize buffer else .ok buffer) with
  | .error _ => { result := .error uploadError, calls := [], store := store }
  | .ok buffer1 =>
    let calls1 := [ClientCall.putObjectCall bucketName filepath buffer1 metadata]
    match putFault with
    | some _ => { result := .error uploadError, calls := calls1, store := store }
    | none =>
      let store1 := putStore store filepath { data := buffer1, metadata := metadata }
      let calls2 := calls1 ++ [ClientCall.statObjectCall bucketName filepath]
      match statRes with
      | .error _ => { result := .error uploadError, calls := calls2, store := store1 }
      | .ok _ => { result := .ok url, calls := calls2, store := store1 }

/-- Embeds `StorageService.deleteObject`: derive the path identically to
`uploadObject` and remove the object there; a failing removal is rethrown
as an `InternalServerErrorException` whose message names the path. -/
def deleteObject (bucketName : String) (store : Store)
    (userId : String) (type : UploadType) (filename : String)
    (removeFault : Option String) : MethodResult Unit :=
  let extension := if type = UploadType.resumes then "pdf" else "jpg"
  let encodedFilename := encodeURIComponentStr filename
  let path := userId ++ "/" ++ uploadTypeStr type ++ "/" ++ encodedFilename ++ "." ++ extension
  let calls := [ClientCall.removeObjectCall bucketName path]
  match removeFault with
  | some _ =>
    { result := .error (.internalServerError
        ("There was an error while deleting the document at the specified path: " ++ path ++ "."))
      calls := calls
      store := store }
  | none => { result := .ok (), calls := calls, store := removeStore store path }

/-- Embeds `StorageService.deleteFolder`: list every object under the prefix
(recursively) into `objectsList`, then bulk-remove exactly that list. The
listing loop sits outside the `try` block, so a listing failure propagates
as the original error; a failing `removeObjects` is rethrown as an
`InternalServerErrorException` naming `bucketName/prefix`. -/
def deleteFolder (bucketName : String) (store : Store) (pfx : String)
    (listFault : Option String) (removeFault : Option String) : MethodResult Unit :=
  let calls0 := [ClientCall.listObjectsV2Call bucketName pfx true]
  match listFault with
  | some code => { result := .error (.clientError code), calls := calls0, store := store }
  | none =>
    let objectsList := listStore store pfx
    let calls := calls0 ++ [ClientCall.removeObjectsCall bucketName objectsList]
    match removeFault with
    | some _ =>
      { result := .error (.internalServerError
          ("There was an error while deleting the folder at the specified path: "
            ++ bucketName ++ "/" ++ pfx ++ "."))
        calls := calls
        store := store }
    | none => { result := .ok (), calls := calls, store := removeObjectsStore store objectsList }

/-! ## Spec-side definitions

These two definitions follow the spec's words (not the implementation):
the documented path layout, and the instantiated policy document. The
theorems below compare the implementation against them. -/

/-- The path layout the spec documents:
`\x7bownerId\x7d/\x7bcategory\x7d/\x7bencodedName\x7d.\x7bextension\x7d`,
with extension `pdf` exactly for the `resumes` category and `jpg`
otherwise, and the name percent-encoded. -/
def pathFor (userId : String) (type : UploadType) (filename : String) : String :=
  userId ++ "/" ++ uploadTypeStr type ++ "/" ++ encodeURIComponentStr filename ++ "." ++
    (if type = UploadType.resumes then "pdf" else "jpg")

/-- The instantiated public-read policy as the spec describes it: the fixed
policy JSON with the configured bucket name substituted into all three
resource ARN strings. Written as an explicit concatenation, independent of
the replacement algorithm. -/
def substitutedPolicy (b : String) : String :=
  "\x7b\"Version\":\"2012-10-17\",\"Statement\":[\x7b\"Sid\":\"PublicAccess\",\"Effect\":\"Allow\",\"Action\":[\"s3:GetObject\"],\"Principal\":\x7b\"AWS\":[\"*\"]\x7d,\"Resource\":[\"arn:aws:s3:::"
    ++ (b ++ ("/*/pictures/*\",\"arn:aws:s3:::"
    ++ (b ++ ("/*/previews/*\",\"arn:aws:s3:::"
    ++ (b ++ "/*/resumes/*\"]\x7d]\x7d")))))

/-! ## Round-trip of URI component encoding -/

lemma hexVal_hexDigit {n : Nat} (h : n < 16) : hexVal (hexDigit n) = some n := by
  revert h
  revert n
  decide

lemma decodeCont_pct (b : Nat) (hb : b < 256) (rest : List Char) :
    decodeCont (pctTriple b ++ rest) =
      some (b, ⟨rest, by simp [pctTriple]⟩) := by
  simp only [pctTriple, List.cons_append, List.nil_append, decodeCont,
    hexVal_hexDigit (show b / 16 < 16 by omega), hexVal_hexDigit (show b % 16 < 16 by omega)]
  congr 1
  ext
  · omega
  · rfl

lemma decodeEscaped_pct1 (b : Nat) (hb : b < 128) (rest : List Char) :
    decodeEscaped (pctTriple b ++ rest) =
      some (Char.ofNat b, ⟨rest, by simp [pctTriple]; omega⟩) := by
  unfold decodeEscaped
  rw [decodeCont_pct b (by omega) rest]
  simp only [if_pos hb]

lemma decodeEscaped_pct2 (b1 b2 : Nat) (h1 : 194 ≤ b1) (h2 : b1 < 224)
    (hc : utf8Cont b2 = true) (rest : List Char) :
    decodeEscaped (pctTriple b1 ++ (pctTriple b2 ++ rest)) =
      some (Char.ofNat ((b1 - 192) * 64 + (b2 - 128)), ⟨rest, by simp [pctTriple]; omega⟩) := by
  have hb2 : b2 < 256 := by
    simp [utf8Cont] at hc
    omega
  unfold decodeEscaped
  rw [decodeCont_pct b1 (by omega) _]
  simp only [if_neg (show ¬ b1 < 128 by omega), if_neg (show ¬ b1 < 194 by omega),
    if_pos h2]
  rw [decodeCont_pct b2 (by omega) rest]
  simp only [hc, if_pos]

lemma decodeEscaped_pct3 (b1 b2 b3 : Nat) (h1 : 224 ≤ b1) (h2 : b1 < 240)
    (hs : utf8Second3 b1 b2 = true) (hc : utf8Cont b3 = true) (rest : List Char) :
    decodeEscaped (pctTriple b1 ++ (pctTriple b2 ++ (pctTriple b3 ++ rest))) =
      some (Char.ofNat ((b1 - 224) * 4096 + (b2 - 128) * 64 + (b3 - 128)),
        ⟨rest, by simp [pctTriple]; omega⟩) := by
  have hb2 : b2 < 256 := by
    simp [utf8Second3] at hs
    omega
  have hb3 : b3 < 256 := by
    simp [utf8Cont] at hc
    omega
  unfold decodeEscaped
  rw [decodeCont_pct b1 (by omega) _]
  simp only [if_neg (show ¬ b1 < 128 by omega), if_neg (show ¬ b1 < 194 by omega),
    if_neg (show ¬ b1 < 224 by omega), if_pos h2]
  rw [decodeCont_pct b2 (by omega) _]
  dsimp only
  rw [decodeCont_pct b3 (by omega) rest]
  simp only [hs, hc, Bool.and_self, if_pos]

lemma decodeEscaped_pct4 (b1 b2 b3 b4 : Nat) (h1 : 240 ≤ b1) (h2 : b1 < 245)
    (hs : utf8Second4 b1 b2 = true) (hc3 : utf8Cont b3 = true) (hc4 : utf8Cont b4 = true)
    (rest : List Char) :
    decodeEscaped (pctTriple b1 ++ (pctTriple b2 ++ (pctTriple b3 ++ (pctTriple b4 ++ rest)))) =
      some (Char.ofNat ((b1 - 240) * 262144 + (b2 - 128) * 4096 + (b3 - 128) * 64 + (b4 - 128)),
        ⟨rest, by simp [pctTriple]; omega⟩) := by
  have hb2 : b2 < 256 := by
    simp [utf8Second4] at hs
    omega
  have hb3 : b3 < 256 := by
    simp [utf8Cont] at hc3
    omega
  have hb4 : b4 < 256 := by
    simp [utf8Cont] at hc4
    omega
  unfold decodeEscaped
  rw [decodeCont_pct b1 (by omega) _]
  simp only [if_neg (show ¬ b1 < 128 by omega), if_neg (show ¬ b1 < 194 by omega),
    if_neg (show ¬ b1 < 224 by omega), if_neg (show ¬ b1 < 240 by omega), if_pos h2]
  rw [decodeCont_pct b2 (by omega) _]
  dsimp only
  rw [decodeCont_pct b3 (by omega) _]
  dsimp only
  rw [decodeCont_pct b4 (by omega) rest]
  simp only [hs, hc3, hc4, Bool.and_self, if_pos]

lemma decodeURIComponent_nil : decodeURIComponent [] = some [] := by
  rw [decodeURIComponent]

lemma decodeURIComponent_cons_ne (c : Char) (hc : c ≠ '%') (rest : List Char) :
    decodeURIComponent (c :: rest) = (c :: ·) <$> decodeURIComponent rest := by
  rw [decodeURIComponent]
  rw [if_neg hc]

lemma decodeURIComponent_of_escaped {t : List Char} {ch : Char}
    {p : {r : List Char // r.length < ('%' :: t).length}}
    (h : decodeEscaped ('%' :: t) = some (ch, p)) :
    decodeURIComponent ('%' :: t) = (ch :: ·) <$> decodeURIComponent p.1 := by
  obtain ⟨r, hr⟩ := p
  rw [decodeURIComponent]
  rw [if_pos rfl, h]

lemma decode_pct1 (b : Nat) (hb : b < 128) (rest : List Char) :
    decodeURIComponent (pctTriple b ++ rest) =
      (Char.ofNat b :: ·) <$> decodeURIComponent rest := by
  have h := decodeEscaped_pct1 b hb rest
  simp only [pctTriple, List.cons_append, List.nil_append] at h ⊢
  rw [decodeURIComponent_of_escaped h]

lemma decode_pct2 (b1 b2 : Nat) (h1 : 194 ≤ b1) (h2 : b1 < 224)
    (hc : utf8Cont b2 = true) (rest : List Char) :
    decodeURIComponent (pctTriple b1 ++ (pctTriple b2 ++ rest)) =
      (Char.ofNat ((b1 - 192) * 64 + (b2 - 128)) :: ·) <$> decodeURIComponent rest := by
  have h := decodeEscaped_pct2 b1 b2 h1 h2 hc rest
  simp only [pctTriple, List.cons_append, List.nil_append] at h ⊢
  rw [decodeURIComponent_of_escaped h]

lemma decode_pct3 (b1 b2 b3 : Nat) (h1 : 224 ≤ b1) (h2 : b1 < 240)
    (hs : utf8Second3 b1 b2 = true) (hc : utf8Cont b3 = true) (rest : List Char) :
    decodeURIComponent (pctTriple b1 ++ (pctTriple b2 ++ (pctTriple b3 ++ rest))) =
      (Char.ofNat ((b1 - 224) * 4096 + (b2 - 128) * 64 + (b3 - 128)) :: ·) <$>
        decodeURIComponent rest := by
  have h := decodeEscaped_pct3 b1 b2 b3 h1 h2 hs hc rest
  simp only [pctTriple, List.cons_append, List.nil_append] at h ⊢
  rw [decodeURIComponent_of_escaped h]

lemma decode_pct4 (b1 b2 b3 b4 : Nat) (h1 : 240 ≤ b1) (h2 : b1 < 245)
    (hs : utf8Second4 b1 b2 = true) (hc3 : utf8Cont b3 = true) (hc4 : utf8Cont b4 = true)
    (rest : List Char) :
    decodeURIComponent (pctTriple b1 ++ (pctTriple b2 ++ (pctTriple b3 ++ (pctTriple b4 ++ rest)))) =
      (Char.ofNat ((b1 - 240) * 262144 + (b2 - 128) * 4096 + (b3 - 128) * 64 + (b4 - 128)) :: ·) <$>
        decodeURIComponent rest := by
  have h := decodeEscaped_pct4 b1 b2 b3 b4 h1 h2 hs hc3 hc4 rest
  simp only [pctTriple, List.cons_append, List.nil_append] at h ⊢
  rw [decodeURIComponent_of_escaped h]

lemma decode_encodeChar (c : Char) (rest : List Char) :
    decodeURIComponent (encodeChar c ++ rest) = (c :: ·) <$> decodeURIComponent rest := by
  by_cases hu : isUriUnreserved c
  · have hc : c ≠ '%' := by
      intro heq
      rw [heq] at hu
      exact absurd hu (by decide)
    simp only [encodeChar, if_pos hu, List.singleton_append]
    rw [decodeURIComponent_cons_ne c hc rest]
  · have hv : c.toNat < 55296 ∨ (57343 < c.toNat ∧ c.toNat < 1114112) := c.valid
    simp only [encodeChar, if_neg hu]
    by_cases h1 : c.toNat < 128
    · have hsh : ((utf8Bytes c).map pctTriple).flatten ++ rest = pctTriple c.toNat ++ rest := by
        simp [utf8Bytes, h1]
      rw [hsh, decode_pct1 c.toNat h1 rest, Char.ofNat_toNat]
    · by_cases h2 : c.toNat < 2048
      · have hsh : ((utf8Bytes c).map pctTriple).flatten ++ rest =
            pctTriple (192 + c.toNat / 64) ++ (pctTriple (128 + c.toNat % 64) ++ rest) := by
          simp [utf8Bytes, h1, h2]
        rw [hsh, decode_pct2 (192 + c.toNat / 64) (128 + c.toNat % 64) (by omega) (by omega)
          (by simp [utf8Cont]; omega) rest]
        have harg : (192 + c.toNat / 64 - 192) * 64 + (128 + c.toNat % 64 - 128) = c.toNat := by
          omega
        rw [harg, Char.ofNat_toNat]
      · by_cases h3 : c.toNat < 65536
        · have hsh : ((utf8Bytes c).map pctTriple).flatten ++ rest =
              pctTriple (224 + c.toNat / 4096) ++ (pctTriple (128 + (c.toNat / 64) % 64) ++
                (pctTriple (128 + c.toNat % 64) ++ rest)) := by
            simp [utf8Bytes, h1, h2, h3]
          rw [hsh, decode_pct3 (224 + c.toNat / 4096) (128 + (c.toNat / 64) % 64)
            (128 + c.toNat % 64) (by omega) (by omega)
            (by simp [utf8Second3]; omega)
            (by simp [utf8Cont]; omega) rest]
          have harg : (224 + c.toNat / 4096 - 224) * 4096 +
              (128 + (c.toNat / 64) % 64 - 128) * 64 + (128 + c.toNat % 64 - 128) = c.toNat := by
            omega
          rw [harg, Char.ofNat_toNat]
        · have hsh : ((utf8Bytes c).map pctTriple).flatten ++ rest =
              pctTriple (240 + c.toNat / 262144) ++ (pctTriple (128 + (c.toNat / 4096) % 64) ++
                (pctTriple (128 + (c.toNat / 64) % 64) ++ (pctTriple (128 + c.toNat % 64) ++ rest))) := by
            simp [utf8Bytes, h1, h2, h3]
          rw [hsh, decode_pct4 (240 + c.toNat / 262144) (128 + (c.toNat / 4096) % 64)
            (128 + (c.toNat / 64) % 64) (128 + c.toNat % 64)
            (by omega) (by omega)
            (by simp [utf8Second4]; omega)
            (by simp [utf8Cont]; omega)
            (by simp [utf8Cont]; omega) rest]
          have harg : (240 + c.toNat / 262144 - 240) * 262144 +
              (128 + (c.toNat / 4096) % 64 - 128) * 4096 +
              (128 + (c.toNat / 64) % 64 - 128) * 64 + (128 + c.toNat % 64 - 128) = c.toNat := by
            omega
          rw [harg, Char.ofNat_toNat]

lemma decode_encode_list (l : List Char) :
    decodeURIComponent (encodeURIComponent l) = some l := by
  induction l with
  | nil =>
    simp [encodeURIComponent, decodeURIComponent_nil]
  | cons c t ih =>
    have hsplit : encodeURIComponent (c :: t) = encodeChar c ++ encodeURIComponent t := by
      simp [encodeURIComponent]
    rw [hsplit, decode_encodeChar, ih]
    rfl

/-! ## Store and resize helper lemmas -/

lemma getStore_putStore (s : Store) (path : String) (o : StoredObject) :
    getStore (putStore s path o) path = some o := by
  simp [getStore, putStore, List.find?]

lemma roundNearest_ge {a b k : Nat} (hb : 0 < b) (h : k * b ≤ a) : k ≤ roundNearest a b := by
  unfold roundNearest
  rw [Nat.le_div_iff_mul_le (by omega)]
  have hx : k * (2 * b) = 2 * (k * b) := by ring
  omega

lemma resizeOutsideDims_bounds (w h : Nat) (hw : 1 ≤ w) (hh : 1 ≤ h) :
    600 ≤ (resizeOutsideDims w h).1 ∧ 600 ≤ (resizeOutsideDims w h).2 ∧
      min (resizeOutsideDims w h).1 (resizeOutsideDims w h).2 = 600 := by
  unfold resizeOutsideDims
  by_cases hle : h ≤ w
  · have h1 : 600 ≤ roundNearest (w * 600) h := roundNearest_ge (by omega) (by nlinarith)
    simp only [if_pos hle]
    refine ⟨h1, le_refl 600, ?_⟩
    omega
  · have h1 : 600 ≤ roundNearest (h * 600) w := roundNearest_ge (by omega) (by nlinarith)
    simp only [if_neg hle]
    refine ⟨le_refl 600, h1, ?_⟩
    omega

lemma removeObjectsStore_nil (s : Store) : removeObjectsStore s [] = s := by
  simp [removeObjectsStore]

lemma removeStore_absent (s : Store) (path : String) (h : path ∉ s.map (·.1)) :
    removeStore s path = s := by
  rw [removeStore, List.filter_eq_self]
  intro e he
  simp only [bne_iff_ne, ne_eq]
  intro heq
  exact h (List.mem_map.mpr ⟨e, he, heq⟩)

lemma listStore_removeObjectsStore_self (s : Store) (pfx : String) :
    listStore (removeObjectsStore s (listStore s pfx)) pfx = [] := by
  rw [listStore, List.map_eq_nil_iff, List.filter_eq_nil_iff]
  intro e he
  rw [removeObjectsStore, List.mem_filter] at he
  intro hpre
  have hmem : e.1 ∈ listStore s pfx := by
    rw [listStore]
    exact List.mem_map.mpr ⟨e, List.mem_filter.mpr ⟨he.1, hpre⟩, rfl⟩
  have hnot : e.1 ∉ listStore s pfx := by simpa using he.2
  exact hnot hmem

lemma getStore_removeObjectsStore_putStore (s : Store) (p : String) (o : StoredObject)
    (names : List String) (hp : ¬ names.contains p) :
    getStore (removeObjectsStore (putStore s p o) names) p = some o := by
  rw [putStore, removeObjectsStore]
  rw [List.filter_cons]
  simp only [hp]
  simp [getStore, List.find?]

lemma mem_listStore_mem_keys {s : Store} {pfx p : String} (h : p ∈ listStore s pfx) :
    p ∈ s.map (·.1) := by
  rw [listStore] at h
  rcases List.mem_map.mp h with ⟨e, he, rfl⟩
  exact List.mem_map.mpr ⟨e, (List.mem_filter.mp he).1, rfl⟩

set_option maxRecDepth 100000 in
lemma replaceAll_policy (b : String) :
    replaceAllStr bucketNamePlaceholder b stringifiedPolicy = substitutedPolicy b := rfl

/-! ## The claims -/

/-- Claim C9 (confirmed): for every valid filename string, decoding the
percent-encoding used in path derivation recovers the original name:
`decodeURIComponent (encodeURIComponent name) = name`. -/
theorem c9_roundtrip (name : String) :
    decodeURIComponent (encodeURIComponent name.data) = some name.data :=
  decode_encode_list name.data

/-- Claim C2 (confirmed): `uploadObject` and `deleteObject` derive the
identical object path — the pure function `pathFor` of `(userId, type,
filename)`, with extension `pdf` exactly for `resumes` and `jpg` otherwise
and the filename percent-encoded — every path a `putObjectCall` or
`removeObjectCall` is issued with equals it, and a successful upload
returns the configured storage URL prefixed to it. -/
theorem c2_path_derivation (bucketName storageUrl userId filename : String)
    (type : UploadType) (store : Store) (buffer : Buffer)
    (putFault : Option String) (statRes : Except JsError Bool) (removeFault : Option String) :
    (∀ p d m, ClientCall.putObjectCall bucketName p d m ∈
        (uploadObject bucketName storageUrl store userId type buffer filename putFault statRes).calls →
        p = pathFor userId type filename) ∧
    (∀ p, ClientCall.removeObjectCall bucketName p ∈
        (deleteObject bucketName store userId type filename removeFault).calls →
        p = pathFor userId type filename) ∧
    (∀ u, (uploadObject bucketName storageUrl store userId type buffer filename putFault statRes).result = .ok u →
        u = storageUrl ++ "/" ++ pathFor userId type filename) := by
  rcases type <;> rcases buffer <;> rcases putFault <;> rcases statRes <;> rcases removeFault <;>
    simp [uploadObject, deleteObject, pathFor, uploadTypeStr, sharpNormalize, uploadError] <;>
    intros <;> assumption

/-- Witness for C2 at a concrete input: the path put by an upload of
`("u1", pictures, 2000x1000 image, "avatar")` is `pathFor` of those inputs. -/
theorem c2_path_derivation_witness :
    (ClientCall.putObjectCall "default" "u1/pictures/avatar.jpg" (Buffer.image 1200 600)
        { contentType := "image/jpeg", contentDisposition := none } ∈
      (uploadObject "default" "http://storage" [] "u1" UploadType.pictures (Buffer.image 2000 1000)
        "avatar" none (.ok true)).calls) ∧
    "u1/pictures/avatar.jpg" = pathFor "u1" UploadType.pictures "avatar" :=
  ⟨by decide,
    (c2_path_derivation "default" "http://storage" "u1" "avatar" UploadType.pictures []
        (Buffer.image 2000 1000) none (.ok true) none).1
      "u1/pictures/avatar.jpg" (Buffer.image 1200 600)
      { contentType := "image/jpeg", contentDisposition := none } (by decide)⟩

/-- Claim C3 (confirmed): a document upload (`resumes`) stores the input
buffer byte-for-byte unchanged, with content type `application/pdf` and a
content-disposition header carrying the percent-encoded original filename,
regardless of the outcome of the post-write existence check. -/
theorem c3_document_upload (bucketName storageUrl userId filename : String)
    (store : Store) (buffer : Buffer) (statRes : Except JsError Bool) :
    getStore (uploadObject bucketName storageUrl store userId UploadType.resumes buffer
        filename none statRes).store (pathFor userId UploadType.resumes filename) =
      some { data := buffer,
             metadata :=
               { contentType := "application/pdf",
                 contentDisposition := some ("attachment; filename*=UTF-8" ++ String.mk [apos, apos]
                   ++ encodeURIComponentStr filename ++ "." ++ "pdf") } } := by
  rcases statRes <;>
    simp [uploadObject, pathFor, uploadTypeStr, getStore_putStore]

/-- Counterexample to C1 as stated: uploading a 2000x1000 image under
`pictures` stores a 1200x600 image — sharp's `fit: outside` bounds the
smaller dimension by 600, so the width exceeds 600, contradicting
"neither dimension exceeds 600px" and "dimensions at most 600x300". -/
theorem c1_counterexample :
    getStore (uploadObject "default" "http://storage" [] "u1" UploadType.pictures
        (Buffer.image 2000 1000) "avatar" none (.ok true)).store "u1/pictures/avatar.jpg" =
      some { data := Buffer.image 1200 600,
             metadata := { contentType := "image/jpeg", contentDisposition := none } } ∧
    ¬ (1200 ≤ 600) := by
  constructor
  · rfl
  · decide

/-- Claim C1 (corrected): an image-category upload stores the image resized
with fit-outside semantics — both stored dimensions are at least 600 and
the smaller one is exactly 600 (so smaller images are upscaled, and
2000x1000 is stored as 1200x600, not within 600x300). -/
theorem c1_image_fit_outside (bucketName storageUrl userId filename : String)
    (store : Store) (type : UploadType) (w h : Nat)
    (ht : type ≠ UploadType.resumes) (hw : 1 ≤ w) (hh : 1 ≤ h) (b : Bool) :
    ∃ w2 h2,
      getStore (uploadObject bucketName storageUrl store userId type (Buffer.image w h)
          filename none (.ok b)).store (pathFor userId type filename) =
        some { data := Buffer.image w2 h2,
               metadata := { contentType := "image/jpeg", contentDisposition := none } } ∧
      (w2, h2) = resizeOutsideDims w h ∧ 600 ≤ w2 ∧ 600 ≤ h2 ∧ min w2 h2 = 600 := by
  refine ⟨(resizeOutsideDims w h).1, (resizeOutsideDims w h).2, ?_, rfl, ?_, ?_, ?_⟩
  · rcases type <;> simp_all [uploadObject, pathFor, uploadTypeStr, sharpNormalize, getStore_putStore]
  · exact (resizeOutsideDims_bounds w h hw hh).1
  · exact (resizeOutsideDims_bounds w h hw hh).2.1
  · exact (resizeOutsideDims_bounds w h hw hh).2.2

/-- Witness for C1 (corrected) at the spec's own example input. -/
theorem c1_image_fit_outside_witness :
    (1 : Nat) ≤ 2000 ∧ (1 : Nat) ≤ 1000 ∧
    (∃ w2 h2,
      getStore (uploadObject "default" "http://storage" [] "u1" UploadType.pictures
          (Buffer.image 2000 1000) "avatar" none (.ok true)).store
          (pathFor "u1" UploadType.pictures "avatar") =
        some { data := Buffer.image w2 h2,
               metadata := { contentType := "image/jpeg", contentDisposition := none } } ∧
      (w2, h2) = resizeOutsideDims 2000 1000 ∧ 600 ≤ w2 ∧ 600 ≤ h2 ∧ min w2 h2 = 600) :=
  ⟨by decide, by decide,
    c1_image_fit_outside "default" "http://storage" "u1" "avatar" [] UploadType.pictures
      2000 1000 (by decide) (by decide) (by decide) true⟩

/-- Claim C7 (corrected): the post-write existence re-verification does not
gate the returned URL on its boolean outcome — when normalization and the
write succeed, the URL is returned whether the check reports the object
present or absent. But the claim's parenthetical fails: an existence check
that itself throws is caught by the surrounding try block and fails the
whole upload (see the counterexample), so the check is not purely
observational. -/
theorem c7_stat_observability (bucketName storageUrl userId filename : String)
    (store : Store) (type : UploadType) (buffer : Buffer) (b : Bool)
    (hbuf : type = UploadType.resumes ∨ ∃ w h, buffer = Buffer.image w h) :
    (uploadObject bucketName storageUrl store userId type buffer filename none (.ok b)).result
      = .ok (storageUrl ++ "/" ++ pathFor userId type filename) ∧
    ∀ e, (uploadObject bucketName storageUrl store userId type buffer filename none (.error e)).result
      = .error uploadError := by
  rcases hbuf with rfl | ⟨w, h, rfl⟩
  · constructor <;> simp [uploadObject, pathFor, uploadTypeStr]
  · rcases type <;>
      constructor <;>
      simp [uploadObject, pathFor, uploadTypeStr, sharpNormalize]

/-- Witness for C7 (corrected): with an existence check reporting `false`,
the upload still returns the URL. -/
theorem c7_stat_observability_witness :
    ((UploadType.pictures = UploadType.resumes ∨
        ∃ w h, Buffer.image 800 400 = Buffer.image w h) ∧
      (uploadObject "default" "http://storage" [] "u1" UploadType.pictures (Buffer.image 800 400)
          "a" none (.ok false)).result =
        .ok ("http://storage" ++ "/" ++ pathFor "u1" UploadType.pictures "a")) :=
  ⟨Or.inr ⟨800, 400, rfl⟩,
    (c7_stat_observability "default" "http://storage" "u1" "a" [] UploadType.pictures
      (Buffer.image 800 400) false (Or.inr ⟨800, 400, rfl⟩)).1⟩

/-- Counterexample to C7 as stated: when the existence check itself errors,
the upload does not return the URL — it fails with the generic upload
error, even though the write itself succeeded (the object is stored). -/
theorem c7_counterexample :
    (uploadObject "default" "http://storage" [] "u1" UploadType.pictures (Buffer.image 600 600)
        "a" none (.error (.clientError "stat: connection reset"))).result = .error uploadError ∧
    getStore (uploadObject "default" "http://storage" [] "u1" UploadType.pictures
        (Buffer.image 600 600) "a" none
        (.error (.clientError "stat: connection reset"))).store "u1/pictures/a.jpg" =
      some { data := Buffer.image 600 600,
             metadata := { contentType := "image/jpeg", contentDisposition := none } } := by
  constructor <;> rfl

/-- Claim C8 (corrected): deleting a derived path at which no object exists
completes successfully with no error and leaves the store unchanged —
object removal is idempotent in the S3 model, so no delete error is
surfaced for a missing object; an internal-server error naming the path is
raised only when the underlying removal call itself fails. -/
theorem c8_delete_missing (bucketName userId filename : String) (type : UploadType)
    (store : Store) (h : pathFor userId type filename ∉ store.map (·.1)) :
    (deleteObject bucketName store userId type filename none).result = .ok () ∧
    (deleteObject bucketName store userId type filename none).store = store ∧
    ∀ code, (deleteObject bucketName store userId type filename (some code)).result =
      .error (.internalServerError
        ("There was an error while deleting the document at the specified path: "
          ++ pathFor userId type filename ++ ".")) := by
  refine ⟨?_, ?_, ?_⟩
  · rcases type <;> simp [deleteObject]
  · rcases type <;>
      simp only [deleteObject] <;>
      apply removeStore_absent <;>
      simpa [pathFor, uploadTypeStr] using h
  · rcases type <;> simp [deleteObject, pathFor, uploadTypeStr]

/-- Witness for C8 (corrected) on the empty store. -/
theorem c8_delete_missing_witness :
    (pathFor "u1" UploadType.pictures "a" ∉ ([] : Store).map (·.1)) ∧
    (deleteObject "default" [] "u1" UploadType.pictures "a" none).result = .ok () :=
  ⟨by decide,
    (c8_delete_missing "default" "u1" "a" UploadType.pictures [] (by decide)).1⟩

/-- Counterexample to C8 as stated: deleting a path that holds no object
(here, any path in the empty store) succeeds — no delete error is surfaced
for that call, contradicting "the gateway surfaces a delete error". -/
theorem c8_counterexample :
    (deleteObject "default" [] "u1" UploadType.pictures "a" none).result = .ok () := by
  rfl

/-- Claim C10 (confirmed): when no object exists under the prefix, the
listing yields the empty set, the bulk removal is still issued with the
empty list, and the call completes successfully with the store unchanged. -/
theorem c10_deleteFolder_empty_prefix (bucketName pfx : String) (store : Store)
    (h : listStore store pfx = []) :
    deleteFolder bucketName store pfx none none =
      { result := .ok (),
        calls := [ClientCall.listObjectsV2Call bucketName pfx true,
                  ClientCall.removeObjectsCall bucketName []],
        store := store } := by
  simp [deleteFolder, h, removeObjectsStore_nil]

/-- Witness for C10 on a store with no object under the prefix. -/
theorem c10_deleteFolder_empty_prefix_witness :
    listStore [("other/pictures/x.jpg",
        { data := Buffer.raw [1], metadata := { contentType := "image/jpeg", contentDisposition := none } })]
        "u1/" = [] ∧
    deleteFolder "default"
        [("other/pictures/x.jpg",
          { data := Buffer.raw [1], metadata := { contentType := "image/jpeg", contentDisposition := none } })]
        "u1/" none none =
      { result := .ok (),
        calls := [ClientCall.listObjectsV2Call "default" "u1/" true,
                  ClientCall.removeObjectsCall "default" []],
        store := [("other/pictures/x.jpg",
          { data := Buffer.raw [1], metadata := { contentType := "image/jpeg", contentDisposition := none } })] } :=
  ⟨by decide,
    c10_deleteFolder_empty_prefix "default" "u1/"
      [("other/pictures/x.jpg",
        { data := Buffer.raw [1], metadata := { contentType := "image/jpeg", contentDisposition := none } })]
      (by decide)⟩

/-- Claim C5 (confirmed): `deleteFolder` lists all objects under the prefix
recursively, then issues one bulk removal of exactly the listed set; a
failing bulk removal raises an error whose message names
`bucketName/prefix`; after a fault-free run the listing under the prefix is
empty; and an object created between the listing and the removal phases is
not removed. -/
theorem c5_deleteFolder_contract (bucketName pfx : String) (store : Store) :
    (deleteFolder bucketName store pfx none none =
      { result := .ok (),
        calls := [ClientCall.listObjectsV2Call bucketName pfx true,
                  ClientCall.removeObjectsCall bucketName (listStore store pfx)],
        store := removeObjectsStore store (listStore store pfx) }) ∧
    listStore (deleteFolder bucketName store pfx none none).store pfx = [] ∧
    (∀ code, (deleteFolder bucketName store pfx none (some code)).result =
      .error (.internalServerError
        ("There was an error while deleting the folder at the specified path: "
          ++ bucketName ++ "/" ++ pfx ++ "."))) ∧
    (∀ p o, p ∉ store.map (·.1) →
      getStore (removeObjectsStore (putStore store p o) (listStore store pfx)) p = some o) := by
  refine ⟨by simp [deleteFolder], ?_, by simp [deleteFolder], ?_⟩
  · simp only [deleteFolder]
    exact listStore_removeObjectsStore_self store pfx
  · intro p o hp
    apply getStore_removeObjectsStore_putStore
    intro hc
    have hmem : p ∈ listStore store pfx := by simpa using hc
    exact hp (mem_listStore_mem_keys hmem)

/-- Witness for C5: an object created under the prefix after the listing
phase survives the removal phase. -/
theorem c5_deleteFolder_contract_witness :
    ("u1/pictures/b.jpg" ∉
      ([("u1/pictures/a.jpg",
          { data := Buffer.raw [1], metadata := { contentType := "image/jpeg", contentDisposition := none } })]
        : Store).map (·.1)) ∧
    getStore (removeObjectsStore (putStore
        [("u1/pictures/a.jpg",
          { data := Buffer.raw [1], metadata := { contentType := "image/jpeg", contentDisposition := none } })]
        "u1/pictures/b.jpg"
        { data := Buffer.raw [2], metadata := { contentType := "image/jpeg", contentDisposition := none } })
        (listStore
          [("u1/pictures/a.jpg",
            { data := Buffer.raw [1], metadata := { contentType := "image/jpeg", contentDisposition := none } })]
          "u1/")) "u1/pictures/b.jpg" =
      some { data := Buffer.raw [2], metadata := { contentType := "image/jpeg", contentDisposition := none } } :=
  ⟨by decide,
    (c5_deleteFolder_contract "default" "u1/"
        [("u1/pictures/a.jpg",
          { data := Buffer.raw [1], metadata := { contentType := "image/jpeg", contentDisposition := none } })]).2.2.2
      "u1/pictures/b.jpg"
      { data := Buffer.raw [2], metadata := { contentType := "image/jpeg", contentDisposition := none } }
      (by decide)⟩

/-- Claim C4 (confirmed): at startup, the skip flag makes `onModuleInit`
log warnings and return without any client call; when the bucket exists
nothing is created; when absent, the bucket is created and the public-read
policy — with the bucket name substituted into all three resource ARN
strings — is applied; and any failure of the existence check, creation, or
policy application raises an internal-server-class error. -/
theorem c4_onModuleInit (bucketName : String) :
    (∀ existsRes makeFault policyFault,
      onModuleInit bucketName true existsRes makeFault policyFault =
        { result := .ok (), calls := [],
          warns := ["Skipping the verification of whether the storage bucket exists.",
            "Make sure that the following paths are publicly accessible: `/\x7bpictures,previews,resumes\x7d/*`"] }) ∧
    (∀ makeFault policyFault,
      onModuleInit bucketName false (.ok true) makeFault policyFault =
        { result := .ok (), calls := [ClientCall.bucketExistsCall bucketName], warns := [] }) ∧
    (onModuleInit bucketName false (.ok false) none none =
      { result := .ok (),
        calls := [ClientCall.bucketExistsCall bucketName, ClientCall.makeBucketCall bucketName,
          ClientCall.setBucketPolicyCall bucketName (substitutedPolicy bucketName)],
        warns := [] }) ∧
    (∀ e makeFault policyFault,
      (onModuleInit bucketName false (.error e) makeFault policyFault).result =
          .error (.internalServerFrom e) ∧
        isInternalServerClass (.internalServerFrom e) = true) ∧
    (∀ code policyFault,
      (onModuleInit bucketName false (.ok false) (some code) policyFault).result =
        .error (.internalServerFrom
          (.internalServerError "There was an error while creating the storage bucket."))) ∧
    (∀ code,
      (onModuleInit bucketName false (.ok false) none (some code)).result =
        .error (.internalServerFrom
          (.internalServerError "There was an error while applying the policy to the storage bucket."))) := by
  refine ⟨?_, ?_, ?_, ?_, ?_, ?_⟩
  · intro existsRes makeFault policyFault
    simp [onModuleInit]
  · intro makeFault policyFault
    simp [onModuleInit]
  · simp [onModuleInit, replaceAll_policy]
  · intro e makeFault policyFault
    exact ⟨by simp [onModuleInit], rfl⟩
  · intro code policyFault
    simp [onModuleInit]
  · intro code
    simp [onModuleInit]

/-- Claim C6 (corrected): client failures are re-raised as generic
internal-server-class errors in `uploadObject` (both on write failure and
on a failing existence check), `deleteObject`, the removal phase of
`deleteFolder`, and `onModuleInit` — but not on every call path: the
`bucketExists` method rethrows the store's original error unchanged, and a
failure in the listing phase of `deleteFolder` (outside its try block)
propagates as the original client error. -/
theorem c6_error_surface (bucketName storageUrl userId filename pfx : String)
    (store : Store) (type : UploadType) (buffer : Buffer) :
    (∀ code, bucketExistsSvc (.error (.clientError code)) = .error (.clientError code) ∧
      isInternalServerClass (.clientError code) = false) ∧
    (∀ code removeFault,
      (deleteFolder bucketName store pfx (some code) removeFault).result =
        .error (.clientError code)) ∧
    (∀ code statRes,
      (uploadObject bucketName storageUrl store userId type buffer filename
          (some code) statRes).result = .error uploadError) ∧
    (∀ e, (uploadObject bucketName storageUrl store userId type buffer filename
        none (.error e)).result = .error uploadError) ∧
    (∀ code, (deleteObject bucketName store userId type filename (some code)).result =
      .error (.internalServerError
        ("There was an error while deleting the document at the specified path: "
          ++ pathFor userId type filename ++ "."))) ∧
    (∀ code, (deleteFolder bucketName store pfx none (some code)).result =
      .error (.internalServerError
        ("There was an error while deleting the folder at the specified path: "
          ++ bucketName ++ "/" ++ pfx ++ "."))) ∧
    (∀ e makeFault policyFault,
      (onModuleInit bucketName false (.error e) makeFault policyFault).result =
        .error (.internalServerFrom e)) ∧
    isInternalServerClass uploadError = true := by
  refine ⟨?_, by simp [deleteFolder], ?_, ?_, ?_, by simp [deleteFolder], ?_, rfl⟩
  · intro code
    exact ⟨rfl, rfl⟩
  · intro code statRes
    rcases type <;> rcases buffer <;>
      simp [uploadObject, sharpNormalize, uploadError]
  · intro e
    rcases type <;> rcases buffer <;>
      simp [uploadObject, sharpNormalize, uploadError]
  · intro code
    rcases type <;> simp [deleteObject, pathFor, uploadTypeStr]
  · intro e makeFault policyFault
    simp [onModuleInit]

/-- Counterexample to C6 as stated: a client failure in the `bucketExists`
method is rethrown as the original client error, not as an internal-server
class error — the caller receives the store's own error. -/
theorem c6_counterexample :
    bucketExistsSvc (.error (.clientError "connect ECONNREFUSED")) =
      .error (.clientError "connect ECONNREFUSED") ∧
    isInternalServerClass (.clientError "connect ECONNREFUSED") = false := by
  constructor <;> rfl
